import Mathlib

/-!
Verification of the GavelAI evaluation engine (src/backend) against its
specification.  The Python source is shallowly embedded: pure helpers become
Lean functions, the SQLite store becomes explicit lists of typed rows, the
HTTP-backed LLM call becomes an oracle parameter, and Python exceptions
become `Except` / `Option` values.  Wall-clock timestamps (`created_at`
columns filled from `datetime.now()`) are outside the model and are omitted
from the row types; they influence no claim.  Python string operations are
modelled character-exactly for ASCII data (the only non-ASCII subtlety,
Unicode case folding inside `str.upper()`, cannot change whether a line
starts with one of the three ASCII prefixes scanned by the parser on the
inputs considered here).
-/

namespace GavelAI

/-- The single quote character, written numerically. -/
def sq : String := String.singleton (Char.ofNat 39)

/-- Python `str.strip()` whitespace set (ASCII part): space, tab, newline,
carriage return, vertical tab, form feed. -/
def isPySpace (c : Char) : Bool :=
  c = Char.ofNat 32 ∨ c = Char.ofNat 9 ∨ c = Char.ofNat 10 ∨
  c = Char.ofNat 13 ∨ c = Char.ofNat 11 ∨ c = Char.ofNat 12

/-- Python `str.strip()`: drop leading and trailing whitespace. -/
def pyStrip (s : String) : String :=
  String.mk (((s.data.dropWhile isPySpace).reverse.dropWhile isPySpace).reverse)

/-- ASCII decimal digit test. -/
def pyIsDigit (c : Char) : Bool := 48 ≤ c.toNat ∧ c.toNat ≤ 57

/-- ASCII uppercase conversion of one character (Python `str.upper()`
restricted to ASCII). -/
def pyUpperChar (c : Char) : Char :=
  if 97 ≤ c.toNat ∧ c.toNat ≤ 122 then Char.ofNat (c.toNat - 32) else c

/-- ASCII lowercase conversion of one character (Python `str.lower()`
restricted to ASCII). -/
def pyLowerChar (c : Char) : Char :=
  if 65 ≤ c.toNat ∧ c.toNat ≤ 90 then Char.ofNat (c.toNat + 32) else c

/-- Python `str.upper()` (ASCII). -/
def pyToUpper (s : String) : String := String.mk (s.data.map pyUpperChar)

/-- Python `str.lower()` (ASCII). -/
def pyToLower (s : String) : String := String.mk (s.data.map pyLowerChar)

/-- `listStartsWith cs ps` is true when `ps` is a leading run of `cs`
(Python `str.startswith`). -/
def listStartsWith : List Char → List Char → Bool
  | _, [] => true
  | [], _ :: _ => false
  | c :: cs, p :: ps => c = p ∧ listStartsWith cs ps

/-- Python `s.startswith(p)`. -/
def pyStartsWith (s p : String) : Bool := listStartsWith s.data p.data

/-- Python `line.split(":", 1)[1]`: everything after the first colon.
Total here (empty when no colon occurs); every caller uses it under a
`startswith` guard that guarantees a colon is present. -/
def afterFirstColon (line : String) : String :=
  String.mk ((line.data.dropWhile (fun c => ¬ c = Char.ofNat 58)).drop 1)

/-- Splitting a character list at every occurrence of `sep`
(Python `str.split(sep)` for a one-character separator; the result always
has at least one group, and an empty input yields one empty group). -/
def splitChar (sep : Char) : List Char → List (List Char)
  | [] => [[]]
  | c :: rest =>
    match splitChar sep rest with
    | [] => [[]]
    | g :: gs => if c = sep then [] :: g :: gs else (c :: g) :: gs

/-- The lines scanned by `parse_verdict`: `response.strip().split(chr(10))`. -/
def pyLines (response : String) : List String :=
  (splitChar (Char.ofNat 10) (pyStrip response).data).map String.mk

/-- Model of a CPython `float` value as produced by `float(str)`:
an exact rational, an infinity, or NaN. -/
inductive PyFloat where
  | finite (q : ℚ)
  | pinf
  | ninf
  | nan
deriving DecidableEq, Repr

/-- Worker for `pyDigitsU`: consumes digits, allowing a single underscore
between two digits, and returns the accepted digits together with the
unconsumed rest. -/
def pyDigitsUGo : List Char → List Char → List Char × List Char
  | c :: d :: rest, acc =>
    if c = Char.ofNat 95 then
      if pyIsDigit d then pyDigitsUGo rest (d :: acc)
      else (acc.reverse, c :: d :: rest)
    else if pyIsDigit c then pyDigitsUGo (d :: rest) (c :: acc)
    else (acc.reverse, c :: d :: rest)
  | [c], acc =>
    if pyIsDigit c then ((c :: acc).reverse, []) else (acc.reverse, [c])
  | [], acc => (acc.reverse, [])

/-- Parses a maximal run of decimal digits that may contain single
underscores between digits (the Python numeric-literal grammar).  Returns
the digits (underscores removed) and the unconsumed rest; `none` when the
input does not start with a digit. -/
def pyDigitsU : List Char → Option (List Char × List Char)
  | c :: rest => if pyIsDigit c then some (pyDigitsUGo rest [c]) else none
  | [] => none

/-- Natural number denoted by a list of decimal digits. -/
def natOfDigits (ds : List Char) : ℕ :=
  ds.foldl (fun n c => 10 * n + (c.toNat - 48)) 0

/-- Model of CPython `float(str)`.  `none` models `ValueError`.  Accepts
optional surrounding whitespace, an optional sign, `inf`/`infinity`/`nan`
(case-insensitively), or a decimal literal `digits [. digits] [(e|E) [sign]
digits]` with at least one mantissa digit and underscores only between
digits.  Decimal values of magnitude at least `2 ^ 1024` overflow to an
infinity, as CPython float conversion does; the model keeps in-range values
exact instead of rounding them to 53-bit binary, which is indistinguishable
after the integer truncation and clamping performed by the caller. -/
def pyFloatParse (s : String) : Option PyFloat :=
  let cs0 := (pyStrip s).data
  let sgn : Int :=
    match cs0 with
    | c :: _ => if c = Char.ofNat 45 then -1 else 1
    | [] => 1
  let cs : List Char :=
    match cs0 with
    | c :: rest => if c = Char.ofNat 43 ∨ c = Char.ofNat 45 then rest else cs0
    | [] => cs0
  let low := cs.map pyLowerChar
  if low = "inf".data ∨ low = "infinity".data then
    some (if sgn = 1 then PyFloat.pinf else PyFloat.ninf)
  else if low = "nan".data then some PyFloat.nan
  else
    let (ip, rest) : List Char × List Char :=
      match pyDigitsU cs with
      | some (d, r) => (d, r)
      | none => ([], cs)
    let (fp, rest2) : List Char × List Char :=
      match rest with
      | c :: r =>
        if c = Char.ofNat 46 then
          match pyDigitsU r with
          | some (d, r2) => (d, r2)
          | none => ([], r)
        else ([], rest)
      | [] => ([], rest)
    if ip = [] ∧ fp = [] then none
    else
      let expPart : Option Int :=
        match rest2 with
        | [] => some 0
        | e :: r =>
          if e = Char.ofNat 101 ∨ e = Char.ofNat 69 then
            let (esgn, r2) : Int × List Char :=
              match r with
              | c :: rr =>
                if c = Char.ofNat 43 then (1, rr)
                else if c = Char.ofNat 45 then (-1, rr)
                else (1, r)
              | [] => (1, r)
            match pyDigitsU r2 with
            | some (d, []) => some (esgn * (natOfDigits d : Int))
            | _ => none
          else none
      match expPart with
      | none => none
      | some ex =>
        let mant : ℕ := natOfDigits (ip ++ fp)
        if mant = 0 then some (PyFloat.finite 0)
        else if ex > 400 then
          some (if sgn = 1 then PyFloat.pinf else PyFloat.ninf)
        else if ex < -500 then some (PyFloat.finite 0)
        else
          -- the exact value is sgn * mant * 10 ^ (ex - fp.length)
          let d : Int := ex - (fp.length : Int)
          let overflow : Bool :=
            if d ≥ 0 then mant * 10 ^ d.toNat ≥ 2 ^ 1024
            else mant ≥ 2 ^ 1024 * 10 ^ (-d).toNat
          if overflow then
            some (if sgn = 1 then PyFloat.pinf else PyFloat.ninf)
          else if d ≥ 0 then
            some (PyFloat.finite (mkRat (sgn * (mant * 10 ^ d.toNat : ℕ)) 1))
          else
            some (PyFloat.finite (mkRat (sgn * (mant : ℕ)) (10 ^ (-d).toNat)))

/-- Python `int(float)` truncation toward zero on an exact rational. -/
def truncRat (q : ℚ) : Int := q.num.tdiv (q.den : Int)

/-- Python `min` on two integers. -/
def pyMin (a b : Int) : Int := if a ≤ b then a else b

/-- Python `max` on two integers. -/
def pyMax (a b : Int) : Int := if a ≥ b then a else b

/-- The Python exceptions that can escape the embedded code. -/
inductive PyExc where
  | overflowError
deriving DecidableEq, Repr

deriving instance DecidableEq for Except

/-- The confidence computation of `parse_verdict` for the text after the
first colon of a `CONFIDENCE:` line (ollama_client.py lines 118-124):
strip; remove every `%`; keep the portion before the first `/`; strip;
`int(float(raw))` clamped to `[0, 100]`.  A `ValueError` (unparsable text,
or `int(nan)`) is caught by the `except (ValueError, IndexError)` clause
and yields 50; `int` of an infinite float raises `OverflowError`, which
that clause does not catch. -/
def confFromText (t : String) : Except PyExc Int :=
  let raw := pyStrip t
  let raw := pyStrip (String.mk
    (((raw.data.filter (fun c => ¬ c = Char.ofNat 37)).takeWhile
      (fun c => ¬ c = Char.ofNat 47))))
  match pyFloatParse raw with
  | none => Except.ok 50
  | some PyFloat.nan => Except.ok 50
  | some PyFloat.pinf => Except.error PyExc.overflowError
  | some PyFloat.ninf => Except.error PyExc.overflowError
  | some (PyFloat.finite q) => Except.ok (pyMax 0 (pyMin 100 (truncRat q)))

/-- One iteration of the `for line in lines` loop of `parse_verdict`,
acting on the `(verdict, reasoning, confidence)` accumulator. -/
def parseStep (st : String × String × Int) (l : String) :
    Except PyExc (String × String × Int) :=
  let line := pyStrip l
  if pyStartsWith (pyToUpper line) "VERDICT:" then
    let vt := pyToLower (pyStrip (afterFirstColon line))
    if vt = "pass" ∨ vt = "fail" ∨ vt = "inconclusive" then
      Except.ok (vt, st.2.1, st.2.2)
    else Except.ok st
  else if pyStartsWith (pyToUpper line) "REASONING:" then
    Except.ok (st.1, pyStrip (afterFirstColon line), st.2.2)
  else if pyStartsWith (pyToUpper line) "CONFIDENCE:" then
    match confFromText (afterFirstColon line) with
    | Except.ok c => Except.ok (st.1, st.2.1, c)
    | Except.error e => Except.error e
  else Except.ok st

/-- The `for line in lines` loop of `parse_verdict`, with exception
propagation. -/
def parseFold : List String → String × String × Int →
    Except PyExc (String × String × Int)
  | [], st => Except.ok st
  | l :: ls, st =>
    match parseStep st l with
    | Except.ok st2 => parseFold ls st2
    | Except.error e => Except.error e

/-- Embedding of `parse_verdict` (ollama_client.py lines 89-130).
`Except.error` models a Python exception escaping the function. -/
def parse_verdict (response : String) : Except PyExc (String × String × Int) :=
  match parseFold (pyLines response) ("inconclusive", "", 50) with
  | Except.error e => Except.error e
  | Except.ok st =>
    Except.ok (st.1, if st.2.1 = "" then pyStrip response else st.2.1, st.2.2)

/-! ### Spec-side per-line views of the scan

These three functions restate, line by line, which value each kind of
scanned line contributes, mirroring the branch structure of the loop.
They are used to compare the loop against the spec sentence "first match per
prefix wins" and to state the corrected last-match law. -/

/-- The accepted verdict carried by one line, if any. -/
def verdictOfLine (l : String) : Option String :=
  let line := pyStrip l
  if pyStartsWith (pyToUpper line) "VERDICT:" then
    let vt := pyToLower (pyStrip (afterFirstColon line))
    if vt = "pass" ∨ vt = "fail" ∨ vt = "inconclusive" then some vt else none
  else none

/-- The reasoning text carried by one line, if any. -/
def reasoningOfLine (l : String) : Option String :=
  let line := pyStrip l
  if pyStartsWith (pyToUpper line) "VERDICT:" then none
  else if pyStartsWith (pyToUpper line) "REASONING:" then
    some (pyStrip (afterFirstColon line))
  else none

/-- The confidence outcome carried by one line, if any. -/
def confValOfLine (l : String) : Option (Except PyExc Int) :=
  let line := pyStrip l
  if pyStartsWith (pyToUpper line) "VERDICT:" then none
  else if pyStartsWith (pyToUpper line) "REASONING:" then none
  else if pyStartsWith (pyToUpper line) "CONFIDENCE:" then
    some (confFromText (afterFirstColon line))
  else none

theorem parseStep_of_verdict (st : String × String × Int) (l vt : String)
    (h : verdictOfLine l = some vt) :
    reasoningOfLine l = none ∧ confValOfLine l = none ∧
      parseStep st l = Except.ok (vt, st.2.1, st.2.2) := by
  unfold verdictOfLine at h
  unfold reasoningOfLine confValOfLine parseStep
  simp only at h ⊢
  split_ifs at h ⊢ <;> simp_all

theorem parseStep_of_reasoning (st : String × String × Int) (l t : String)
    (h : reasoningOfLine l = some t) :
    verdictOfLine l = none ∧ confValOfLine l = none ∧
      parseStep st l = Except.ok (st.1, t, st.2.2) := by
  unfold reasoningOfLine at h
  unfold verdictOfLine confValOfLine parseStep
  simp only at h ⊢
  split_ifs at h ⊢ <;> simp_all

theorem parseStep_of_conf_ok (st : String × String × Int) (l : String)
    (c1 : Int) (h : confValOfLine l = some (Except.ok c1)) :
    parseStep st l = Except.ok (st.1, st.2.1, c1) := by
  unfold confValOfLine at h
  unfold parseStep
  simp only at h ⊢
  split_ifs at h ⊢ <;> simp_all

theorem parseStep_of_conf_err (st : String × String × Int) (l : String)
    (e : PyExc) (h : confValOfLine l = some (Except.error e)) :
    parseStep st l = Except.error e := by
  unfold confValOfLine at h
  unfold parseStep
  simp only at h ⊢
  split_ifs at h ⊢ <;> simp_all

theorem parseStep_of_none (st : String × String × Int) (l : String)
    (hv : verdictOfLine l = none) (hr : reasoningOfLine l = none)
    (hc : confValOfLine l = none) : parseStep st l = Except.ok st := by
  unfold verdictOfLine at hv
  unfold reasoningOfLine at hr
  unfold confValOfLine at hc
  unfold parseStep
  simp only at hv hr hc ⊢
  split_ifs at hv hr hc ⊢ <;> simp_all

/-- The loop keeps, for each of the three scanned prefixes independently,
the value of the LAST matching line (each later match overwrites the
earlier one), falling back to the initial accumulator values when no line
matches. -/
theorem parseFold_lastMatch (lines : List String) :
    ∀ (v0 r0 : String) (c0 : Int) (v r : String) (c : Int),
      parseFold lines (v0, r0, c0) = Except.ok (v, r, c) →
        v = (lines.filterMap verdictOfLine).getLastD v0 ∧
        r = (lines.filterMap reasoningOfLine).getLastD r0 ∧
        Except.ok (ε := PyExc) c =
          (lines.filterMap confValOfLine).getLastD (Except.ok c0) := by
  induction lines with
  | nil =>
    intro v0 r0 c0 v r c h
    simp only [parseFold, Except.ok.injEq, Prod.mk.injEq] at h
    simp [List.filterMap_nil, List.getLastD_nil, h.1, h.2.1, h.2.2]
  | cons l ls ih =>
    intro v0 r0 c0 v r c h
    rcases hv : verdictOfLine l with _ | vt
    · rcases hr : reasoningOfLine l with _ | t
      · rcases hc : confValOfLine l with _ | ec
        · have hstep := parseStep_of_none (v0, r0, c0) l hv hr hc
          rw [parseFold, hstep] at h
          have H := ih v0 r0 c0 v r c h
          simp only [List.filterMap_cons, hv, hr, hc]
          exact H
        · cases ec with
          | ok c1 =>
            have hstep := parseStep_of_conf_ok (v0, r0, c0) l c1 hc
            rw [parseFold, hstep] at h
            have H := ih v0 r0 c1 v r c h
            simp only [List.filterMap_cons, hv, hr, hc, List.getLastD_cons]
            exact H
          | error e =>
            have hstep := parseStep_of_conf_err (v0, r0, c0) l e hc
            rw [parseFold, hstep] at h
            exact absurd h (by simp)
      · obtain ⟨-, hc, hstep⟩ := parseStep_of_reasoning (v0, r0, c0) l t hr
        rw [parseFold, hstep] at h
        have H := ih v0 t c0 v r c h
        simp only [List.filterMap_cons, hv, hr, hc, List.getLastD_cons]
        exact H
    · obtain ⟨hr, hc, hstep⟩ := parseStep_of_verdict (v0, r0, c0) l vt hv
      rw [parseFold, hstep] at h
      have H := ih vt r0 c0 v r c h
      simp only [List.filterMap_cons, hv, hr, hc, List.getLastD_cons]
      exact H

theorem confFromText_ok_bounds (t : String) (c : Int)
    (h : confFromText t = Except.ok c) : 0 ≤ c ∧ c ≤ 100 := by
  unfold confFromText at h
  simp only at h
  split at h
  · simp only [Except.ok.injEq] at h
    omega
  · simp only [Except.ok.injEq] at h
    omega
  · exact absurd h (by simp)
  · exact absurd h (by simp)
  · simp only [Except.ok.injEq] at h
    subst h
    unfold pyMax pyMin
    split_ifs <;> omega

/-- The invariant maintained by the scan accumulator: the verdict is one of
the three enumerated values and the confidence lies in `[0, 100]`. -/
def VRCinv (st : String × String × Int) : Prop :=
  (st.1 = "pass" ∨ st.1 = "fail" ∨ st.1 = "inconclusive") ∧
    0 ≤ st.2.2 ∧ st.2.2 ≤ 100

theorem parseStep_inv (st st' : String × String × Int) (l : String)
    (hP : VRCinv st) (h : parseStep st l = Except.ok st') : VRCinv st' := by
  unfold parseStep at h
  simp only at h
  split_ifs at h with h1 h2 h3 h4
  · simp only [Except.ok.injEq] at h
    subst h
    exact ⟨h2, hP.2⟩
  · simp only [Except.ok.injEq] at h
    subst h
    exact hP
  · simp only [Except.ok.injEq] at h
    subst h
    exact ⟨hP.1, hP.2⟩
  · rcases hc : confFromText (afterFirstColon (pyStrip l)) with e | c1 <;>
      rw [hc] at h <;> simp only [Except.ok.injEq] at h
    · exact absurd h (by simp)
    · subst h
      exact ⟨hP.1, confFromText_ok_bounds _ _ hc⟩
  · simp only [Except.ok.injEq] at h
    subst h
    exact hP

theorem parseFold_inv (lines : List String) :
    ∀ st st', VRCinv st → parseFold lines st = Except.ok st' → VRCinv st' := by
  induction lines with
  | nil =>
    intro st st' hP h
    simp only [parseFold, Except.ok.injEq] at h
    exact h ▸ hP
  | cons l ls ih =>
    intro st st' hP h
    rw [parseFold] at h
    rcases hstep : parseStep st l with e | st2 <;> rw [hstep] at h
    · exact absurd h (by simp)
    · exact ih st2 st' (parseStep_inv st st2 l hP hstep) h

/-- The confidence-extraction pipeline exactly as claim C5 states it:
trim; strip a TRAILING `%` (only); if the text contains `/`, keep only the
portion before it; parse as a number, defaulting to 50 on parse failure;
clamp to `[0, 100]`.  Compared below against the pipeline of the source. -/
def claimStatedConf (t : String) : Except PyExc Int :=
  let s1 := pyStrip t
  let s2 :=
    if s1.data.getLast? = some (Char.ofNat 37) then String.mk s1.data.dropLast
    else s1
  let s3 := String.mk (s2.data.takeWhile (fun c => ¬ c = Char.ofNat 47))
  match pyFloatParse s3 with
  | none => Except.ok 50
  | some PyFloat.nan => Except.ok 50
  | some PyFloat.pinf => Except.error PyExc.overflowError
  | some PyFloat.ninf => Except.error PyExc.overflowError
  | some (PyFloat.finite q) => Except.ok (pyMax 0 (pyMin 100 (truncRat q)))

/-- The confidence-extraction pipeline as claim C5 reads after the ONE
correction the code forces: ALL `%` characters are removed (not only a
trailing one) before the `/` split, then the kept portion is trimmed,
parsed as a number (50 on parse failure) and clamped to `[0, 100]`. -/
def specAmendedConf (t : String) : Except PyExc Int :=
  let s1 := pyStrip t
  let s2 := String.mk (s1.data.filter (fun c => ¬ c = Char.ofNat 37))
  let s3 := String.mk (s2.data.takeWhile (fun c => ¬ c = Char.ofNat 47))
  let s4 := pyStrip s3
  match pyFloatParse s4 with
  | none => Except.ok 50
  | some PyFloat.nan => Except.ok 50
  | some PyFloat.pinf => Except.error PyExc.overflowError
  | some PyFloat.ninf => Except.error PyExc.overflowError
  | some (PyFloat.finite q) => Except.ok (pyMax 0 (pyMin 100 (truncRat q)))

/-- C2: `parse_verdict` is total with verdict in the three enumerated
values and confidence in `[0, 100]`.  FALSIFIED in its totality part:
every non-raising run does satisfy the range properties (first conjunct),
but the input `"CONFIDENCE: inf"` makes the Python function raise an
uncaught `OverflowError` — `int(float("inf"))` raises `OverflowError`,
which the `except (ValueError, IndexError)` clause does not catch (second
conjunct). -/
theorem C2_parse_verdict_totality :
    (∀ s v r c, parse_verdict s = Except.ok (v, r, c) →
      (v = "pass" ∨ v = "fail" ∨ v = "inconclusive") ∧ 0 ≤ c ∧ c ≤ 100) ∧
    parse_verdict "CONFIDENCE: inf" = Except.error PyExc.overflowError := by
  constructor
  · intro s v r c h
    unfold parse_verdict at h
    rcases hfold : parseFold (pyLines s) ("inconclusive", "", 50) with e | st <;>
      rw [hfold] at h
    · exact absurd h (by simp)
    · have hinv := parseFold_inv (pyLines s) ("inconclusive", "", 50) st
        (by exact ⟨Or.inr (Or.inr rfl), by decide, by decide⟩) hfold
      simp only [Except.ok.injEq, Prod.mk.injEq] at h
      obtain ⟨h1, -, h3⟩ := h
      exact ⟨h1 ▸ hinv.1, h3 ▸ hinv.2⟩
  · decide

/-- Witness for C2: the range part applied to the empty response, whose
result is `("inconclusive", "", 50)`. -/
theorem C2_parse_verdict_totality_witness :
    ("inconclusive" = "pass" ∨ "inconclusive" = "fail" ∨
      "inconclusive" = "inconclusive") ∧ 0 ≤ (50 : Int) ∧ (50 : Int) ≤ 100 :=
  C2_parse_verdict_totality.1 "" "inconclusive" "" 50 (by decide)

set_option exponentiation.threshold 2000 in
set_option maxRecDepth 8000 in
/-- C4 counterexample: on duplicate-prefix inputs the LAST matching line
wins, not the first.  For `"VERDICT: pass\nVERDICT: fail"` the first
matching `VERDICT:` line carries `"pass"`, yet the function returns
`"fail"`; for `"CONFIDENCE: 85\nCONFIDENCE: banana"` the first matching
`CONFIDENCE:` line carries 85, yet the function returns the default 50
(the later unparsable duplicate overwrote it). -/
theorem C4_counterexample :
    parse_verdict "VERDICT: pass\nVERDICT: fail" =
      Except.ok ("fail", "VERDICT: pass\nVERDICT: fail", 50) ∧
    ((pyLines "VERDICT: pass\nVERDICT: fail").filterMap verdictOfLine).head? =
      some "pass" ∧
    parse_verdict "CONFIDENCE: 85\nCONFIDENCE: banana" =
      Except.ok ("inconclusive", "CONFIDENCE: 85\nCONFIDENCE: banana", 50) ∧
    ((pyLines "CONFIDENCE: 85\nCONFIDENCE: banana").filterMap confValOfLine).head? =
      some (Except.ok 85) := by
  refine ⟨by decide, by decide, by decide, by decide⟩

/-- Shared characterization: every non-raising run of `parse_verdict`
keeps, for each scanned prefix, the value of the last matching line. -/
theorem parse_verdict_lastMatch (s : String) (v r : String) (c : Int)
    (h : parse_verdict s = Except.ok (v, r, c)) :
    v = ((pyLines s).filterMap verdictOfLine).getLastD "inconclusive" ∧
    Except.ok (ε := PyExc) c =
      ((pyLines s).filterMap confValOfLine).getLastD (Except.ok 50) ∧
    r = (if ((pyLines s).filterMap reasoningOfLine).getLastD "" = "" then
          pyStrip s
        else ((pyLines s).filterMap reasoningOfLine).getLastD "") := by
  unfold parse_verdict at h
  rcases hfold : parseFold (pyLines s) ("inconclusive", "", 50) with e | st <;>
    rw [hfold] at h
  · exact absurd h (by simp)
  · obtain ⟨h1, h2, h3⟩ :=
      parseFold_lastMatch (pyLines s) "inconclusive" "" 50 st.1 st.2.1 st.2.2
        (by rw [hfold])
    simp only [Except.ok.injEq, Prod.mk.injEq] at h
    obtain ⟨hv, hr, hc⟩ := h
    refine ⟨hv ▸ h1, ?_, ?_⟩
    · rw [← hc]
      exact h3
    · rw [← hr, ← h2]

/-- C4 as amended: for every input (with duplicate prefix lines or not),
each of the three prefixes takes the value of its LAST matching line —
later duplicates overwrite earlier ones (for `VERDICT:` only lines with a
valid value overwrite; for `CONFIDENCE:` every matching line overwrites,
resetting to the default on parse failure), with reasoning falling back to
the whole trimmed response when the kept value is empty. -/
theorem C4_last_match_wins (s : String) (v r : String) (c : Int)
    (h : parse_verdict s = Except.ok (v, r, c)) :
    v = ((pyLines s).filterMap verdictOfLine).getLastD "inconclusive" ∧
    Except.ok (ε := PyExc) c =
      ((pyLines s).filterMap confValOfLine).getLastD (Except.ok 50) ∧
    r = (if ((pyLines s).filterMap reasoningOfLine).getLastD "" = "" then
          pyStrip s
        else ((pyLines s).filterMap reasoningOfLine).getLastD "") :=
  parse_verdict_lastMatch s v r c h

set_option exponentiation.threshold 2000 in
set_option maxRecDepth 8000 in
/-- Witness for C4: the last-match law applied to
`"VERDICT: pass\nVERDICT: fail"`. -/
theorem C4_last_match_wins_witness :
    "fail" =
      ((pyLines "VERDICT: pass\nVERDICT: fail").filterMap
        verdictOfLine).getLastD "inconclusive" ∧
    Except.ok (ε := PyExc) 50 =
      ((pyLines "VERDICT: pass\nVERDICT: fail").filterMap
        confValOfLine).getLastD (Except.ok 50) ∧
    "VERDICT: pass\nVERDICT: fail" =
      (if ((pyLines "VERDICT: pass\nVERDICT: fail").filterMap
            reasoningOfLine).getLastD "" = "" then
        pyStrip "VERDICT: pass\nVERDICT: fail"
      else ((pyLines "VERDICT: pass\nVERDICT: fail").filterMap
            reasoningOfLine).getLastD "") :=
  C4_last_match_wins "VERDICT: pass\nVERDICT: fail" "fail"
    "VERDICT: pass\nVERDICT: fail" 50 (by decide)

set_option exponentiation.threshold 2000 in
set_option maxRecDepth 8000 in
/-- C5 counterexample: the extraction does NOT strip only a trailing `%`;
it removes every `%`.  On the `CONFIDENCE:` text `" 8%5"` the code yields
85 (all `%` removed gives `"85"`), while the pipeline exactly as the claim
states it yields the parse-failure default 50 (no trailing `%` to strip,
and `"8%5"` is not a number). -/
theorem C5_counterexample :
    parse_verdict "CONFIDENCE: 8%5" =
      Except.ok ("inconclusive", "CONFIDENCE: 8%5", 85) ∧
    confFromText " 8%5" = Except.ok 85 ∧
    claimStatedConf " 8%5" = Except.ok 50 := by
  refine ⟨by decide, by decide, by decide⟩

set_option exponentiation.threshold 2000 in
set_option maxRecDepth 8000 in
/-- C5 as amended: the confidence extraction trims, removes ALL `%`
characters, keeps the portion before the first `/`, trims again, parses as
a number defaulting to 50 on parse failure, and clamps to `[0, 100]`; the
concrete examples of the claim all hold: `"85/100"` yields 85, `"150"` clamps
to 100, `"-10"` clamps to 0 and `"banana"` defaults to 50. -/
theorem C5_confidence_pipeline :
    (∀ t, confFromText t = specAmendedConf t) ∧
    parse_verdict "CONFIDENCE: 85/100" =
      Except.ok ("inconclusive", "CONFIDENCE: 85/100", 85) ∧
    parse_verdict "CONFIDENCE: 150" =
      Except.ok ("inconclusive", "CONFIDENCE: 150", 100) ∧
    parse_verdict "CONFIDENCE: -10" =
      Except.ok ("inconclusive", "CONFIDENCE: -10", 0) ∧
    parse_verdict "CONFIDENCE: banana" =
      Except.ok ("inconclusive", "CONFIDENCE: banana", 50) := by
  refine ⟨fun t => ?_, by decide, by decide, by decide, by decide⟩
  unfold confFromText specAmendedConf
  rfl

/-- C6 counterexample: the fallback to the whole trimmed response is NOT
equivalent to "no `REASONING:` line found": the input `"REASONING:"`
contains a `REASONING:`-prefixed line (whose text after the prefix trims
to the empty string), yet the returned reasoning is the whole trimmed
response `"REASONING:"` instead of the found empty text. -/
theorem C6_counterexample :
    parse_verdict "REASONING:" = Except.ok ("inconclusive", "REASONING:", 50) ∧
    (pyLines "REASONING:").filterMap reasoningOfLine = [""] := by
  refine ⟨by decide, by decide⟩

/-- C6 as amended: the returned reasoning is the trimmed text after the
LAST `REASONING:` line, and falls back to the entire trimmed raw response
exactly when no `REASONING:` line is found OR the kept text is empty after
trimming. -/
theorem C6_reasoning_fallback (s : String) (v r : String) (c : Int)
    (h : parse_verdict s = Except.ok (v, r, c)) :
    r = (if ((pyLines s).filterMap reasoningOfLine).getLastD "" = "" then
          pyStrip s
        else ((pyLines s).filterMap reasoningOfLine).getLastD "") :=
  (parse_verdict_lastMatch s v r c h).2.2

/-- Witness for C6: the fallback law applied to `"REASONING: why"`,
whose reasoning is the found text `"why"`. -/
theorem C6_reasoning_fallback_witness :
    "why" = (if ((pyLines "REASONING: why").filterMap
          reasoningOfLine).getLastD "" = "" then
        pyStrip "REASONING: why"
      else ((pyLines "REASONING: why").filterMap reasoningOfLine).getLastD "") :=
  C6_reasoning_fallback "REASONING: why" "inconclusive" "why" 50 (by decide)

/-! ### The store (database rows) and the orchestrator `run_evaluations` -/

/-- A row of the `submissions` table. -/
structure SubmissionRow where
  id : String
  queue_id : String
  labeling_task_id : String
  created_at : Int
deriving DecidableEq, Repr

/-- A row of the `questions` table as main.py reads and writes it (the
`content` column holds the optional per-question grounding context). -/
structure QuestionRow where
  submission_id : String
  question_template_id : String
  question_type : String
  question_text : String
  content : Option String
  rev : Int
deriving DecidableEq, Repr

/-- A row of the `answers` table. -/
structure AnswerRow where
  submission_id : String
  question_template_id : String
  choice : String
  reasoning : Option String
deriving DecidableEq, Repr

/-- A row of the `judges` table. -/
structure JudgeRow where
  id : Int
  name : String
  system_prompt : String
  model_name : String
  active : Bool
deriving DecidableEq, Repr

/-- A row of the `judge_assignments` table. -/
structure AssignmentRow where
  queue_id : String
  question_template_id : String
  judge_id : Int
deriving DecidableEq, Repr

/-- A row of the `evaluations` table as main.py writes it. -/
structure EvaluationRow where
  submission_id : String
  question_template_id : String
  judge_id : Int
  verdict : String
  reasoning : String
  confidence_score : Int
deriving DecidableEq, Repr

/-- The SQLite store as typed rows, in rowid (insertion) order. -/
structure Store where
  submissions : List SubmissionRow
  questions : List QuestionRow
  answers : List AnswerRow
  judges : List JudgeRow
  assignments : List AssignmentRow
  evaluations : List EvaluationRow
deriving DecidableEq, Repr

/-- Outcome of one `ollama_client.generate` call: a response text, an
`httpx.HTTPError`, or any other exception. -/
inductive GenResult where
  | ok (text : String)
  | httpError (msg : String)
  | exc (msg : String)
deriving DecidableEq, Repr

/-- The LLM backend for one run, as a deterministic oracle:
model name → prompt → system prompt → outcome. -/
def GenOracle : Type := String → String → String → GenResult

/-- Outcome of one evaluation INSERT: `none` on success, `some msg` when
the database raises (msg is `str(e)`). -/
def PersistOracle : Type := EvaluationRow → Option String

/-- the message built at main.py line 578: the text "HTTP error for judge ",
a single quote, the judge name, a single quote, ": " and the cause. -/
def httpErrMsg (judgeName cause : String) : String :=
  "HTTP error for judge " ++ sq ++ judgeName ++ sq ++ ": " ++ cause

/-- the message built at main.py line 582, analogous to `httpErrMsg`. -/
def runErrMsg (judgeName cause : String) : String :=
  "Error running judge " ++ sq ++ judgeName ++ sq ++ ": " ++ cause

/-- `str(e)` of the `OverflowError` that `parse_verdict` can raise. -/
def overflowStr : String := "cannot convert float infinity to integer"

/-- The `context_section` f-string of main.py lines 520-528 (empty when the
question content is falsy, i.e. absent or empty). -/
def contextSection (content : Option String) : String :=
  match content with
  | none => ""
  | some c =>
    if c = "" then ""
    else
      "\n=== CONTEXT ===\nThe following is the source material that the question and answer refer to. You MUST use this context to verify the accuracy of the answer. Do not evaluate the answer in isolation — ground your judgment in the specific details provided here.\n\n"
        ++ c ++ "\n\n"

/-- The grading-prompt f-string of main.py lines 530-553. -/
def buildPrompt (content : Option String) (qText answerText : String) : String :=
  contextSection content
    ++ "=== QUESTION BEING EVALUATED ===\n"
    ++ qText
    ++ "\n\n=== HUMAN ANALYST" ++ sq ++ "S ANSWER ===\n"
    ++ answerText
    ++ "\n\n=== YOUR EVALUATION TASK ===\nYou are evaluating whether the human analyst"
    ++ sq
    ++ "s answer above is correct and well-reasoned. Analyze it against the following criteria:\n\n1. **Factual Accuracy**: Does the chosen answer correctly reflect what is shown in the context? Are specific values, thresholds, and facts cited accurately?\n2. **Reasoning Consistency**: Does the reasoning logically support the stated choice? If the reasoning contradicts the choice (e.g., the reasoning describes a violation but the choice says \"compliant\"), this is a FAIL regardless of whether either part is independently correct.\n3. **Completeness**: Does the reasoning address the key factors relevant to the question, or does it overlook critical details present in the context?\n4. **Domain Correctness**: Are domain-specific terms, standards, and thresholds applied correctly?\n\nIMPORTANT RULES:\n- A contradictory answer (where reasoning contradicts the choice) is always a FAIL.\n- If the context provides specific data that clearly supports or refutes the answer, use it. Do not speculate beyond what is given.\n- If there is insufficient context to make a determination, verdict should be INCONCLUSIVE.\n- Be precise in your reasoning — cite specific values, thresholds, or code patterns from the context.\n\nRespond in EXACTLY this format (three lines, no extra text):\nVERDICT: pass|fail|inconclusive\nREASONING: [Your detailed explanation citing specific evidence from the context]\nCONFIDENCE: [0-100, where 100 means absolute certainty in your verdict]"

/-- The `answer_text` built at main.py lines 506-508: the reasoning line is
appended only when the stored reasoning is truthy (present and
non-empty). -/
def answerTextOf (a : AnswerRow) : String :=
  "Choice: " ++ a.choice ++
    (match a.reasoning with
      | none => ""
      | some r => if r = "" then "" else "\nReasoning: " ++ r)

/-- `SELECT id FROM submissions WHERE queue_id = ?`. -/
def submissionIdsInQueue (store : Store) (queueId : String) : List String :=
  (store.submissions.filter (fun s0 => s0.queue_id = queueId)).map (fun s0 => s0.id)

/-- `SELECT ... FROM questions WHERE submission_id = ?`. -/
def questionsOf (store : Store) (subId : String) : List QuestionRow :=
  store.questions.filter (fun q => q.submission_id = subId)

/-- The judge JOIN of main.py lines 485-492: judges that are active and
assigned to this (queue, template) pair. -/
def judgesFor (store : Store) (queueId tid : String) : List JudgeRow :=
  store.judges.filter (fun j =>
    j.active ∧ store.assignments.any (fun a =>
      a.judge_id = j.id ∧ a.queue_id = queueId ∧ a.question_template_id = tid))

/-- `SELECT choice, reasoning FROM answers WHERE submission_id = ? AND
question_template_id = ?` followed by `fetchone()`. -/
def answerFor (store : Store) (subId tid : String) : Option AnswerRow :=
  (store.answers.filter (fun a =>
    a.submission_id = subId ∧ a.question_template_id = tid)).head?

/-- The mutable state threaded through one run: the counters, the error
list, and the evaluation rows inserted so far (in insertion order). -/
structure RunState where
  planned : Nat
  completed : Nat
  failed : Nat
  errors : List String
  evaluations : List EvaluationRow
deriving DecidableEq, Repr

/-- The body of `for judge_row in judge_rows` (main.py lines 511-583):
count the attempt, build the prompt, call the backend, parse, insert; any
exception from the call, the parse, or the insert is caught, counted in
`failed`, and recorded with the judge name. -/
def runJudge (gen : GenOracle) (persist : PersistOracle)
    (subId tid qText : String) (qContent : Option String) (aText : String)
    (st : RunState) (j : JudgeRow) : RunState :=
  let st := { st with planned := st.planned + 1 }
  let prompt := buildPrompt qContent qText aText
  match gen j.model_name prompt j.system_prompt with
  | GenResult.httpError e =>
    { st with failed := st.failed + 1,
              errors := st.errors ++ [httpErrMsg j.name e] }
  | GenResult.exc e =>
    { st with failed := st.failed + 1,
              errors := st.errors ++ [runErrMsg j.name e] }
  | GenResult.ok response =>
    match parse_verdict response with
    | Except.error PyExc.overflowError =>
      { st with failed := st.failed + 1,
                errors := st.errors ++ [runErrMsg j.name overflowStr] }
    | Except.ok (v, r, c) =>
      let row : EvaluationRow :=
        { submission_id := subId, question_template_id := tid,
          judge_id := j.id, verdict := v, reasoning := r,
          confidence_score := c }
      match persist row with
      | some e =>
        { st with failed := st.failed + 1,
                  errors := st.errors ++ [runErrMsg j.name e] }
      | none =>
        { st with completed := st.completed + 1,
                  evaluations := st.evaluations ++ [row] }

/-- The body of `for q_row in question_rows` (main.py lines 479-583): fetch
the assigned active judges and the answer; with no answer the question is
skipped (`continue`); otherwise every judge runs. -/
def processQuestion (gen : GenOracle) (persist : PersistOracle)
    (store : Store) (queueId subId : String) (st : RunState)
    (q : QuestionRow) : RunState :=
  let judges := judgesFor store queueId q.question_template_id
  match answerFor store subId q.question_template_id with
  | none => st
  | some a =>
    judges.foldl
      (runJudge gen persist subId q.question_template_id q.question_text
        q.content (answerTextOf a))
      st

/-- The body of `for sub_id in submission_ids` (main.py lines 470-583). -/
def processSubmission (gen : GenOracle) (persist : PersistOracle)
    (store : Store) (queueId : String) (st : RunState) (subId : String) :
    RunState :=
  (questionsOf store subId).foldl (processQuestion gen persist store queueId subId) st

/-- The final run state of `run_evaluations` (main.py lines 452-592). -/
def run_evaluationsState (gen : GenOracle) (persist : PersistOracle)
    (store : Store) (queueId : String) : RunState :=
  (submissionIdsInQueue store queueId).foldl
    (processSubmission gen persist store queueId)
    { planned := 0, completed := 0, failed := 0, errors := [], evaluations := [] }

/-- The response model returned by the endpoint. -/
structure RunEvaluationResponse where
  planned : Nat
  completed : Nat
  failed : Nat
  errors : List String
deriving DecidableEq, Repr

/-- Embedding of `run_evaluations`: the returned summary, with the error
list truncated to the first 10 messages (`errors[:10]`). -/
def run_evaluations (gen : GenOracle) (persist : PersistOracle)
    (store : Store) (queueId : String) : RunEvaluationResponse :=
  let st := run_evaluationsState gen persist store queueId
  { planned := st.planned, completed := st.completed, failed := st.failed,
    errors := st.errors.take 10 }

/-! ### The declared schema of database.py versus the columns main.py uses -/

/-- Columns of the `evaluations` table as `init_db` declares it
(database.py lines 74-86). -/
def evaluationsTableColumns : List String :=
  ["id", "submission_id", "question_template_id", "judge_id", "verdict",
   "reasoning", "created_at"]

/-- Columns named by the evaluation INSERT of main.py lines 567-572. -/
def evaluationsInsertColumns : List String :=
  ["submission_id", "question_template_id", "judge_id", "verdict",
   "reasoning", "confidence_score", "created_at"]

/-- Columns of the `questions` table as `init_db` declares it
(database.py lines 24-34). -/
def questionsTableColumns : List String :=
  ["id", "submission_id", "question_template_id", "question_type",
   "question_text", "rev"]

/-- Columns named by the question INSERT of main.py lines 71-77. -/
def questionsInsertColumns : List String :=
  ["submission_id", "question_template_id", "question_type",
   "question_text", "content", "rev"]

/-- SQLite accepts an INSERT exactly when every named column is declared
on the table. -/
def insertColumnsDeclared (table cols : List String) : Bool :=
  cols.all (fun c => table.contains c)

/-- Persist outcome against a database freshly created by `init_db`: the
INSERT names `confidence_score`, which the declared `evaluations` table
does not have, so sqlite raises `OperationalError`. -/
def persistFreshSchema : PersistOracle := fun _ =>
  if insertColumnsDeclared evaluationsTableColumns evaluationsInsertColumns then
    none
  else some "table evaluations has no column named confidence_score"

/-- Persist oracle of an always-succeeding store (what the spec assumes). -/
def persistAlwaysOk : PersistOracle := fun _ => none

/-! ### Concrete run scenarios -/

/-- The C1 end-to-end store: queue `"Q1"`, one submission `"S1"` with the
question `"Is X compliant?"` (no grounding content) answered `"yes"`, one
active judge assigned. -/
def storeC1 : Store :=
  { submissions := [{ id := "S1", queue_id := "Q1",
                      labeling_task_id := "T1", created_at := 0 }],
    questions := [{ submission_id := "S1", question_template_id := "QT1",
                    question_type := "single_select",
                    question_text := "Is X compliant?", content := none,
                    rev := 1 }],
    answers := [{ submission_id := "S1", question_template_id := "QT1",
                  choice := "yes", reasoning := none }],
    judges := [{ id := 1, name := "Judge One", system_prompt := "sys",
                 model_name := "m1", active := true }],
    assignments := [{ queue_id := "Q1", question_template_id := "QT1",
                      judge_id := 1 }],
    evaluations := [] }

/-- The C1 backend oracle: every call returns the canned reply. -/
def genC1 : GenOracle := fun _ _ _ =>
  GenResult.ok "VERDICT: pass\nREASONING: ok\nCONFIDENCE: 90"

/-- The C3 store: like `storeC1` but with three active judges assigned to
the one question. -/
def storeC3 : Store :=
  { storeC1 with
    judges := [{ id := 1, name := "Judge One", system_prompt := "sys1",
                 model_name := "m1", active := true },
               { id := 2, name := "Judge Two", system_prompt := "sys2",
                 model_name := "m2", active := true },
               { id := 3, name := "Judge Three", system_prompt := "sys3",
                 model_name := "m3", active := true }],
    assignments := [{ queue_id := "Q1", question_template_id := "QT1",
                      judge_id := 1 },
                    { queue_id := "Q1", question_template_id := "QT1",
                      judge_id := 2 },
                    { queue_id := "Q1", question_template_id := "QT1",
                      judge_id := 3 }] }

/-- The C3 backend oracle: the model of the middle judge is unreachable, the
other two answer normally. -/
def genC3 : GenOracle := fun model _ _ =>
  if model = "m2" then GenResult.httpError "boom"
  else GenResult.ok "VERDICT: pass\nREASONING: ok\nCONFIDENCE: 90"

/-! ### Orchestrator theorems -/

set_option exponentiation.threshold 2000 in
set_option maxRecDepth 8000 in
/-- C1: the end-to-end success path.  The orchestration logic does
produce it (last two conjuncts, with a persist that succeeds), but against
the schema that `init_db` declares the claim FAILS: the INSERT names the
column `confidence_score`, which the declared `evaluations` table does not
have (first conjunct; the `questions` table similarly lacks the `content`
column main.py uses), so on a freshly initialised database the persist
raises and the run reports `failed = 1, completed = 0` (third conjunct)
instead of the claimed `completed = 1`. -/
theorem C1_end_to_end :
    ("confidence_score" ∈ evaluationsInsertColumns ∧
      "confidence_score" ∉ evaluationsTableColumns) ∧
    ("content" ∈ questionsInsertColumns ∧
      "content" ∉ questionsTableColumns) ∧
    run_evaluations genC1 persistFreshSchema storeC1 "Q1" =
      { planned := 1, completed := 0, failed := 1,
        errors := [runErrMsg "Judge One"
          "table evaluations has no column named confidence_score"] } ∧
    run_evaluations genC1 persistAlwaysOk storeC1 "Q1" =
      { planned := 1, completed := 1, failed := 0, errors := [] } ∧
    (run_evaluationsState genC1 persistAlwaysOk storeC1 "Q1").evaluations =
      [{ submission_id := "S1", question_template_id := "QT1", judge_id := 1,
         verdict := "pass", reasoning := "ok", confidence_score := 90 }] := by
  refine ⟨by decide, by decide, by decide, by decide, by decide⟩

set_option exponentiation.threshold 2000 in
set_option maxRecDepth 8000 in
/-- C3: per-item failure isolation.  Any `httpx.HTTPError`, any other
exception from the invocation (including the parse), and any persist
failure each increment `failed` by one, leave `completed` unchanged, and
append exactly one error message containing the judge name; and in the
concrete scenario of one question with three assigned active judges where
exactly one invocation throws, the run returns
`planned = 3, completed = 2, failed = 1` with one error message. -/
theorem C3_per_item_isolation :
    (∀ (gen : GenOracle) (persist : PersistOracle) subId tid qText qContent
        aText (st : RunState) (j : JudgeRow) e,
      gen j.model_name (buildPrompt qContent qText aText) j.system_prompt =
          GenResult.httpError e →
        runJudge gen persist subId tid qText qContent aText st j =
          { st with planned := st.planned + 1, failed := st.failed + 1,
                    errors := st.errors ++ [httpErrMsg j.name e] } ∧
        (∃ pre post, httpErrMsg j.name e = pre ++ j.name ++ post)) ∧
    (∀ (gen : GenOracle) (persist : PersistOracle) subId tid qText qContent
        aText (st : RunState) (j : JudgeRow) e,
      gen j.model_name (buildPrompt qContent qText aText) j.system_prompt =
          GenResult.exc e →
        runJudge gen persist subId tid qText qContent aText st j =
          { st with planned := st.planned + 1, failed := st.failed + 1,
                    errors := st.errors ++ [runErrMsg j.name e] } ∧
        (∃ pre post, runErrMsg j.name e = pre ++ j.name ++ post)) ∧
    (∀ (gen : GenOracle) (persist : PersistOracle) subId tid qText qContent
        aText (st : RunState) (j : JudgeRow) resp v r c e,
      gen j.model_name (buildPrompt qContent qText aText) j.system_prompt =
          GenResult.ok resp →
        parse_verdict resp = Except.ok (v, r, c) →
        persist { submission_id := subId, question_template_id := tid,
                  judge_id := j.id, verdict := v, reasoning := r,
                  confidence_score := c } = some e →
        runJudge gen persist subId tid qText qContent aText st j =
          { st with planned := st.planned + 1, failed := st.failed + 1,
                    errors := st.errors ++ [runErrMsg j.name e] } ∧
        (∃ pre post, runErrMsg j.name e = pre ++ j.name ++ post)) ∧
    run_evaluations genC3 persistAlwaysOk storeC3 "Q1" =
      { planned := 3, completed := 2, failed := 1,
        errors := [httpErrMsg "Judge Two" "boom"] } := by
  refine ⟨?_, ?_, ?_, ?_⟩
  · intro gen persist subId tid qText qContent aText st j e hgen
    refine ⟨?_, "HTTP error for judge " ++ sq, sq ++ ": " ++ e, by
      simp [httpErrMsg, String.append_assoc]⟩
    simp only [runJudge, hgen]
  · intro gen persist subId tid qText qContent aText st j e hgen
    refine ⟨?_, "Error running judge " ++ sq, sq ++ ": " ++ e, by
      simp [runErrMsg, String.append_assoc]⟩
    simp only [runJudge, hgen]
  · intro gen persist subId tid qText qContent aText st j resp v r c e hgen
      hparse hpersist
    refine ⟨?_, "Error running judge " ++ sq, sq ++ ": " ++ e, by
      simp [runErrMsg, String.append_assoc]⟩
    simp only [runJudge, hgen, hparse, hpersist]
  · decide

/-- Witness for C3: the HTTP-failure part applied to a concrete judge,
state, and an oracle that always fails. -/
theorem C3_per_item_isolation_witness :
    runJudge (fun _ _ _ => GenResult.httpError "down") persistAlwaysOk
        "S1" "QT1" "Is X compliant?" none "Choice: yes"
        { planned := 0, completed := 0, failed := 0, errors := [],
          evaluations := [] }
        { id := 1, name := "J", system_prompt := "s", model_name := "m",
          active := true } =
      { planned := 1, completed := 0, failed := 1,
        errors := [httpErrMsg "J" "down"], evaluations := [] } ∧
    (∃ pre post, httpErrMsg "J" "down" = pre ++ "J" ++ post) :=
  C3_per_item_isolation.1 (fun _ _ _ => GenResult.httpError "down")
    persistAlwaysOk "S1" "QT1" "Is X compliant?" none "Choice: yes"
    { planned := 0, completed := 0, failed := 0, errors := [],
      evaluations := [] }
    { id := 1, name := "J", system_prompt := "s", model_name := "m",
      active := true } "down" rfl

/-- C7: the skip rule.  When no answer row exists for this submission and
template, the question contributes nothing: the whole run state (counters,
error list, inserted evaluations) is returned unchanged and no judge is
invoked. -/
theorem C7_skip_unanswered (gen : GenOracle) (persist : PersistOracle)
    (store : Store) (queueId subId : String) (st : RunState)
    (q : QuestionRow)
    (h : answerFor store subId q.question_template_id = none) :
    processQuestion gen persist store queueId subId st q = st := by
  unfold processQuestion
  rw [h]

/-- Witness for C7: a store with no answer rows at all. -/
theorem C7_skip_unanswered_witness :
    processQuestion genC1 persistAlwaysOk { storeC1 with answers := [] }
        "Q1" "S1"
        { planned := 0, completed := 0, failed := 0, errors := [],
          evaluations := [] }
        { submission_id := "S1", question_template_id := "QT1",
          question_type := "single_select",
          question_text := "Is X compliant?", content := none, rev := 1 } =
      { planned := 0, completed := 0, failed := 0, errors := [],
        evaluations := [] } :=
  C7_skip_unanswered genC1 persistAlwaysOk { storeC1 with answers := [] }
    "Q1" "S1"
    { planned := 0, completed := 0, failed := 0, errors := [],
      evaluations := [] }
    { submission_id := "S1", question_template_id := "QT1",
      question_type := "single_select", question_text := "Is X compliant?",
      content := none, rev := 1 }
    (by decide)

theorem foldl_preserves {α β : Type} (P : α → Prop) (f : α → β → α)
    (hf : ∀ st x, P st → P (f st x)) :
    ∀ (l : List β) (st : α), P st → P (l.foldl f st) := by
  intro l
  induction l with
  | nil => intro st h; exact h
  | cons x xs ih => intro st h; exact ih (f st x) (hf st x h)

theorem runJudge_counters (gen : GenOracle) (persist : PersistOracle)
    (subId tid qText : String) (qContent : Option String) (aText : String)
    (st : RunState) (j : JudgeRow)
    (h : st.planned = st.completed + st.failed) :
    (runJudge gen persist subId tid qText qContent aText st j).planned =
      (runJudge gen persist subId tid qText qContent aText st j).completed +
      (runJudge gen persist subId tid qText qContent aText st j).failed := by
  unfold runJudge
  try dsimp only
  repeat' split
  all_goals try dsimp only
  all_goals omega

/-- Counter consistency of the final run state. -/
theorem run_state_counters (gen : GenOracle) (persist : PersistOracle)
    (store : Store) (queueId : String) :
    (run_evaluationsState gen persist store queueId).planned =
      (run_evaluationsState gen persist store queueId).completed +
      (run_evaluationsState gen persist store queueId).failed := by
  unfold run_evaluationsState
  refine foldl_preserves
    (fun s0 : RunState => s0.planned = s0.completed + s0.failed) _ ?_ _ _ rfl
  intro s1 subId h1
  unfold processSubmission
  refine foldl_preserves
    (fun s0 : RunState => s0.planned = s0.completed + s0.failed) _ ?_ _ _ h1
  intro s2 q h2
  unfold processQuestion
  rcases ha : answerFor store subId q.question_template_id with _ | a <;>
    simp only [ha]
  · exact h2
  · refine foldl_preserves
      (fun s0 : RunState => s0.planned = s0.completed + s0.failed) _ ?_ _ _ h2
    intro s3 j h3
    exact runJudge_counters gen persist subId q.question_template_id
      q.question_text q.content (answerTextOf a) s3 j h3

/-- C10: every run summary satisfies `planned = completed + failed` —
each planned (submission, question, judge) attempt ends in exactly one of
the success or the failure branch. -/
theorem C10_counters_consistent (gen : GenOracle) (persist : PersistOracle)
    (store : Store) (queueId : String) :
    (run_evaluations gen persist store queueId).planned =
      (run_evaluations gen persist store queueId).completed +
      (run_evaluations gen persist store queueId).failed := by
  have key := run_state_counters gen persist store queueId
  unfold run_evaluations
  dsimp only
  exact key

/-! ### Submission upload (`upload_submissions`, main.py lines 43-98) -/

/-- One answer of the uploaded JSON (pydantic `Answer`). -/
structure AnswerIn where
  choice : String
  reasoning : Option String
deriving DecidableEq, Repr

/-- One question of the uploaded JSON (pydantic `Question` flattened with
its `data`). -/
structure QuestionIn where
  rev : Int
  id : String
  questionType : String
  questionText : String
  content : Option String
deriving DecidableEq, Repr

/-- One submission of the uploaded JSON (pydantic `Submission`); `answers`
is the `Dict[str, Answer]`, so its keys are unique. -/
structure SubmissionIn where
  id : String
  queueId : String
  labelingTaskId : String
  createdAt : Int
  questions : List QuestionIn
  answers : List (String × AnswerIn)
deriving DecidableEq, Repr

/-- One iteration of the upload loop (main.py lines 57-88):
`INSERT OR REPLACE` for the submission row (the row with the same primary
key is replaced), then plain `INSERT` for every question and every answer —
previous question and answer rows of the same submission are NOT deleted. -/
def uploadSubmission (st : Store) (sub : SubmissionIn) : Store :=
  { st with
    submissions :=
      (st.submissions.filter (fun s0 => ¬ s0.id = sub.id)) ++
        [{ id := sub.id, queue_id := sub.queueId,
           labeling_task_id := sub.labelingTaskId,
           created_at := sub.createdAt }],
    questions := st.questions ++ sub.questions.map (fun q =>
      { submission_id := sub.id, question_template_id := q.id,
        question_type := q.questionType, question_text := q.questionText,
        content := q.content, rev := q.rev }),
    answers := st.answers ++ sub.answers.map (fun p =>
      { submission_id := sub.id, question_template_id := p.1,
        choice := p.2.choice, reasoning := p.2.reasoning }) }

/-- Embedding of `upload_submissions` for an already-parsed JSON array. -/
def upload_submissions (st : Store) (subs : List SubmissionIn) : Store :=
  subs.foldl uploadSubmission st

/-- The store of a freshly initialised database. -/
def emptyStore : Store :=
  { submissions := [], questions := [], answers := [], judges := [],
    assignments := [], evaluations := [] }

/-- Number of answer rows for one (submission, template) pair. -/
def answerRowCount (st : Store) (subId tid : String) : Nat :=
  st.answers.countP (fun a =>
    a.submission_id = subId ∧ a.question_template_id = tid)

/-- A one-question, one-answer submission for queue `"Q1"`. -/
def sampleSubmissionIn : SubmissionIn :=
  { id := "S1", queueId := "Q1", labelingTaskId := "T1", createdAt := 0,
    questions := [{ rev := 1, id := "QT1",
                    questionType := "single_select",
                    questionText := "Is X compliant?", content := none }],
    answers := [("QT1", { choice := "yes", reasoning := none })] }

/-- C9: at most one Answer row per (submissionId, templateId), preserved by
every upload.  FALSIFIED on re-upload: uploading the same submission twice
replaces the submission row (third conjunct: still one row, because of
`INSERT OR REPLACE`) but plainly re-INSERTs its answers without deleting
the old ones, leaving TWO answer rows for `("S1", "QT1")` (second
conjunct).  A single upload does satisfy the invariant (first conjunct). -/
theorem C9_answer_uniqueness :
    answerRowCount (upload_submissions emptyStore [sampleSubmissionIn])
        "S1" "QT1" = 1 ∧
    answerRowCount
        (upload_submissions (upload_submissions emptyStore [sampleSubmissionIn])
          [sampleSubmissionIn]) "S1" "QT1" = 2 ∧
    (upload_submissions (upload_submissions emptyStore [sampleSubmissionIn])
        [sampleSubmissionIn]).submissions.length = 1 := by
  refine ⟨by decide, by decide, by decide⟩

/-! ### StatsAggregator (`get_evaluation_stats`, main.py lines 660-734) -/

/-- The optional query filters (already parsed from the comma-separated
query strings). -/
structure StatsFilter where
  judge_ids : Option (List Int)
  question_ids : Option (List String)
  verdict : Option String

/-- The conjunctive WHERE clause built at main.py lines 669-692 (and built
identically a second time for the AVG query at lines 705-719). -/
def matchesFilter (f : StatsFilter) (e : EvaluationRow) : Bool :=
  (match f.judge_ids with
    | none => true
    | some ids => ids.contains e.judge_id) &&
  (match f.question_ids with
    | none => true
    | some ids => ids.contains e.question_template_id) &&
  (match f.verdict with
    | none => true
    | some v => decide (e.verdict = v))

/-- The evaluation rows selected by the filters. -/
def filteredEvaluations (rows : List EvaluationRow) (f : StatsFilter) :
    List EvaluationRow :=
  rows.filter (matchesFilter f)

/-- `SELECT verdict, COUNT(*) ... GROUP BY verdict`: one row per distinct
verdict value with its count. -/
def verdictGroups (rows : List EvaluationRow) : List (String × Nat) :=
  ((rows.map (fun e => e.verdict)).dedup).map
    (fun v => (v, (rows.map (fun e => e.verdict)).count v))

/-- Python dict assignment `d[k] = n`: replace the entry if the key is
present, append it otherwise. -/
def dictAssign : List (String × Nat) → String → Nat → List (String × Nat)
  | [], k, n => [(k, n)]
  | p :: ps, k, n =>
    if p.1 = k then (k, n) :: ps else p :: dictAssign ps k n

/-- Python dict lookup with default 0 (reading `stats[...]` after the
loop; the three scanned keys are all initialised). -/
def lookupCount (d : List (String × Nat)) (k : String) : Nat :=
  ((d.find? (fun p => p.1 = k)).map (fun p => p.2)).getD 0

/-- `sum(stats.values())`. -/
def sumVals (d : List (String × Nat)) : Nat := (d.map (fun p => p.2)).sum

/-- `{"pass": 0, "fail": 0, "inconclusive": 0}`. -/
def initDict : List (String × Nat) :=
  [("pass", 0), ("fail", 0), ("inconclusive", 0)]

/-- The `for row in rows: stats[row[0]] = row[1]` loop over the GROUP BY
result. -/
def statsDict (rows : List EvaluationRow) : List (String × Nat) :=
  (verdictGroups rows).foldl (fun d p => dictAssign d p.1 p.2) initDict

/-- CPython `round` to an integer on an exact rational: round half to
even. -/
def pyRoundInt (q : ℚ) : Int :=
  let f := ⌊q⌋
  let r := q - f
  if r < 1/2 then f
  else if r > 1/2 then f + 1
  else if Even f then f else f + 1

/-- CPython `round(x, nd)` on an exact rational. -/
def pyRound (q : ℚ) (nd : Nat) : ℚ :=
  (pyRoundInt (q * 10 ^ nd) : ℚ) / 10 ^ nd

/-- The pydantic `EvaluationStats` response model. -/
structure EvaluationStats where
  total : Nat
  pass_count : Nat
  fail_count : Nat
  inconclusive_count : Nat
  pass_rate : ℚ
  avg_confidence : ℚ
deriving Repr

/-- Embedding of `get_evaluation_stats` (main.py lines 660-734): the
GROUP BY counts assigned over the dict of three zeros, `total` as
`sum(stats.values())`, the pass rate `stats["pass"] / total * 100` (0.0
when `total` is 0) rounded to 2 decimals, and the AVG query over the same
filters rounded to 1 decimal, 50.0 when it returns NULL (no rows). -/
def get_evaluation_stats (rows : List EvaluationRow) (f : StatsFilter) :
    EvaluationStats :=
  let rs := filteredEvaluations rows f
  let d := statsDict rs
  let total := sumVals d
  let pass_rate : ℚ :=
    if total > 0 then (lookupCount d "pass" : ℚ) / (total : ℚ) * 100 else 0
  let avg_confidence : ℚ :=
    if rs.length = 0 then 50
    else pyRound (((rs.map (fun e => e.confidence_score)).sum : ℚ) /
      (rs.length : ℚ)) 1
  { total := total,
    pass_count := lookupCount d "pass",
    fail_count := lookupCount d "fail",
    inconclusive_count := lookupCount d "inconclusive",
    pass_rate := pyRound pass_rate 2,
    avg_confidence := avg_confidence }

theorem lookupCount_all_zero (d : List (String × Nat))
    (h : ∀ p ∈ d, p.2 = 0) (k : String) : lookupCount d k = 0 := by
  induction d with
  | nil => rfl
  | cons p ps ih =>
    unfold lookupCount
    by_cases hp : p.1 = k
    · rw [List.find?_cons_of_pos _ (by simp [hp])]
      simpa using h p (List.mem_cons_self p ps)
    · rw [List.find?_cons_of_neg _ (by simp [hp])]
      exact ih (fun q hq => h q (List.mem_cons_of_mem p hq))

theorem lookupCount_dictAssign_self :
    ∀ (d : List (String × Nat)) (k : String) (n : Nat),
      lookupCount (dictAssign d k n) k = n := by
  intro d
  induction d with
  | nil =>
    intro k n
    simp [dictAssign, lookupCount, List.find?]
  | cons p ps ih =>
    intro k n
    rw [dictAssign]
    by_cases hp : p.1 = k
    · rw [if_pos hp]
      unfold lookupCount
      rw [List.find?_cons_of_pos _ (by simp)]
      rfl
    · rw [if_neg hp]
      unfold lookupCount
      rw [List.find?_cons_of_neg _ (by simp [hp])]
      exact ih k n

theorem lookupCount_dictAssign_ne :
    ∀ (d : List (String × Nat)) (k k' : String) (n : Nat), k' ≠ k →
      lookupCount (dictAssign d k n) k' = lookupCount d k' := by
  intro d
  induction d with
  | nil =>
    intro k k' n h
    simp [dictAssign, lookupCount, List.find?, Ne.symm h]
  | cons p ps ih =>
    intro k k' n h
    rw [dictAssign]
    by_cases hp : p.1 = k
    · rw [if_pos hp]
      unfold lookupCount
      rw [List.find?_cons_of_neg _ (by simp [Ne.symm h]),
        List.find?_cons_of_neg _ (by simp [hp, Ne.symm h])]
    · rw [if_neg hp]
      by_cases hp' : p.1 = k'
      · unfold lookupCount
        rw [List.find?_cons_of_pos _ (by simp [hp']),
          List.find?_cons_of_pos _ (by simp [hp'])]
      · unfold lookupCount
        rw [List.find?_cons_of_neg _ (by simp [hp']),
          List.find?_cons_of_neg _ (by simp [hp'])]
        exact ih k k' n h

theorem sumVals_dictAssign :
    ∀ (d : List (String × Nat)) (k : String) (n : Nat),
      lookupCount d k = 0 →
      sumVals (dictAssign d k n) = sumVals d + n := by
  intro d
  induction d with
  | nil =>
    intro k n _
    simp [dictAssign, sumVals]
  | cons p ps ih =>
    intro k n h
    rw [dictAssign]
    by_cases hp : p.1 = k
    · rw [if_pos hp]
      have hp2 : p.2 = 0 := by
        unfold lookupCount at h
        rw [List.find?_cons_of_pos _ (by simp [hp])] at h
        simpa using h
      simp only [sumVals, List.map_cons, List.sum_cons] at *
      omega
    · rw [if_neg hp]
      have h' : lookupCount ps k = 0 := by
        unfold lookupCount at h
        rwa [List.find?_cons_of_neg _ (by simp [hp])] at h
      have := ih k n h'
      simp only [sumVals, List.map_cons, List.sum_cons] at *
      omega

theorem lookup_statsFold_not_mem :
    ∀ (gs d : List (String × Nat)) (k : String), (∀ p ∈ gs, p.1 ≠ k) →
      lookupCount (gs.foldl (fun d0 p => dictAssign d0 p.1 p.2) d) k =
        lookupCount d k := by
  intro gs
  induction gs with
  | nil =>
    intro d k _
    rfl
  | cons g gs' ih =>
    intro d k h
    rw [List.foldl_cons,
      ih _ k (fun p hp => h p (List.mem_cons_of_mem g hp))]
    exact lookupCount_dictAssign_ne d g.1 k g.2
      (Ne.symm (h g (List.mem_cons_self g gs')))

theorem lookup_statsFold_mem :
    ∀ (gs d : List (String × Nat)) (k : String) (n : Nat),
      (gs.map Prod.fst).Nodup → (k, n) ∈ gs →
      lookupCount (gs.foldl (fun d0 p => dictAssign d0 p.1 p.2) d) k = n := by
  intro gs
  induction gs with
  | nil =>
    intro d k n _ hmem
    cases hmem
  | cons g gs' ih =>
    intro d k n hnd hmem
    rw [List.foldl_cons]
    rcases List.mem_cons.mp hmem with heq | hmem'
    · have hk : k ∉ gs'.map Prod.fst := by
        have h1 := (List.nodup_cons.mp hnd).1
        rw [← heq] at h1
        exact h1
      rw [lookup_statsFold_not_mem gs' _ k
        (fun p hp hpk => hk (hpk ▸ List.mem_map_of_mem Prod.fst hp))]
      rw [← heq]
      exact lookupCount_dictAssign_self d k n
    · exact ih _ k n (List.nodup_cons.mp hnd).2 hmem'

theorem sumVals_statsFold :
    ∀ (gs d : List (String × Nat)),
      (∀ p ∈ gs, lookupCount d p.1 = 0) → (gs.map Prod.fst).Nodup →
      sumVals (gs.foldl (fun d0 p => dictAssign d0 p.1 p.2) d) =
        sumVals d + (gs.map Prod.snd).sum := by
  intro gs
  induction gs with
  | nil =>
    intro d _ _
    simp
  | cons g gs' ih =>
    intro d hz hnd
    rw [List.foldl_cons]
    have h0 : lookupCount d g.1 = 0 := hz g (List.mem_cons_self g gs')
    have hz' : ∀ p ∈ gs', lookupCount (dictAssign d g.1 g.2) p.1 = 0 := by
      intro p hp
      have hne : p.1 ≠ g.1 := fun he =>
        (List.nodup_cons.mp hnd).1 (he ▸ List.mem_map_of_mem Prod.fst hp)
      rw [lookupCount_dictAssign_ne d g.1 p.1 g.2 hne]
      exact hz p (List.mem_cons_of_mem g hp)
    rw [ih _ hz' (List.nodup_cons.mp hnd).2,
      sumVals_dictAssign d g.1 g.2 h0]
    simp only [List.map_cons, List.sum_cons]
    omega

theorem verdictGroups_keys (rows : List EvaluationRow) :
    (verdictGroups rows).map Prod.fst =
      (rows.map (fun e => e.verdict)).dedup := by
  unfold verdictGroups
  rw [List.map_map]
  simp [Function.comp_def]

theorem statsDict_total (rows : List EvaluationRow) :
    sumVals (statsDict rows) = rows.length := by
  unfold statsDict
  rw [sumVals_statsFold _ initDict
    (fun p _ => lookupCount_all_zero initDict (by decide) p.1)
    (by rw [verdictGroups_keys]; exact List.nodup_dedup _)]
  have hsum : ((verdictGroups rows).map Prod.snd).sum = rows.length := by
    unfold verdictGroups
    rw [List.map_map]
    have h2 := Multiset.toFinset_sum_count_eq
      ((rows.map fun e => e.verdict : List String) : Multiset String)
    simp only [Finset.sum] at h2
    rw [Multiset.toFinset_val, Multiset.coe_dedup] at h2
    simpa using h2
  rw [hsum]
  simp [sumVals, initDict]

theorem lookup_statsDict (rows : List EvaluationRow) (k : String) :
    lookupCount (statsDict rows) k =
      (rows.map (fun e => e.verdict)).count k := by
  unfold statsDict
  by_cases hk : k ∈ (rows.map (fun e => e.verdict)).dedup
  · have hmem : (k, (rows.map (fun e => e.verdict)).count k) ∈
        verdictGroups rows := by
      unfold verdictGroups
      exact List.mem_map_of_mem _ hk
    exact lookup_statsFold_mem _ initDict k _
      (by rw [verdictGroups_keys]; exact List.nodup_dedup _) hmem
  · have hcount : (rows.map (fun e => e.verdict)).count k = 0 := by
      rw [List.count_eq_zero]
      exact fun hmem => hk (List.mem_dedup.mpr hmem)
    rw [hcount,
      lookup_statsFold_not_mem _ initDict k ?_]
    · exact lookupCount_all_zero initDict (by decide) k
    · intro p hp hpk
      have hmem := List.mem_map_of_mem Prod.fst hp
      rw [verdictGroups_keys] at hmem
      exact hk (hpk ▸ hmem)

theorem count_map_verdict (rs : List EvaluationRow) (v : String) :
    (rs.map (fun e => e.verdict)).count v =
      rs.countP (fun e => decide (e.verdict = v)) := by
  rw [List.count_eq_countP, List.countP_map]
  exact List.countP_congr (fun e _ => by simp [Function.comp])

theorem pyRound_zero (nd : Nat) : pyRound 0 nd = 0 := by
  unfold pyRound pyRoundInt
  norm_num

/-- C8: for every store state and filter, `passRate` is
`passCount / total * 100` rounded to 2 decimals (0.0 when `total = 0`) and
`avgConfidence` is the mean confidence of the filtered rows rounded to 1
decimal (50.0 when no rows match); `total` itself is the number of
filtered rows and `passCount` the number of those with verdict pass. -/
theorem C8_stats_aggregation (rows : List EvaluationRow) (f : StatsFilter) :
    (get_evaluation_stats rows f).total = (filteredEvaluations rows f).length ∧
    (get_evaluation_stats rows f).pass_count =
      (filteredEvaluations rows f).countP (fun e => e.verdict = "pass") ∧
    (get_evaluation_stats rows f).pass_rate =
      (if (filteredEvaluations rows f).length = 0 then 0
       else pyRound
        (((filteredEvaluations rows f).countP
            (fun e => e.verdict = "pass") : ℚ) /
          ((filteredEvaluations rows f).length : ℚ) * 100) 2) ∧
    (get_evaluation_stats rows f).avg_confidence =
      (if (filteredEvaluations rows f).length = 0 then 50
       else pyRound
        ((((filteredEvaluations rows f).map
            (fun e => e.confidence_score)).sum : ℚ) /
          ((filteredEvaluations rows f).length : ℚ)) 1) := by
  unfold get_evaluation_stats
  dsimp only
  have htot := statsDict_total (filteredEvaluations rows f)
  have hpass := (lookup_statsDict (filteredEvaluations rows f) "pass").trans
    (count_map_verdict (filteredEvaluations rows f) "pass")
  refine ⟨htot, hpass, ?_, ?_⟩
  · rw [htot, hpass]
    by_cases hlen : (filteredEvaluations rows f).length = 0
    · simp [hlen, pyRound_zero]
    · simp [hlen, Nat.pos_of_ne_zero hlen]
  · rfl

end GavelAI
